import Mathlib

/-!
Verification of the combinatorial RCL component-value search platform
(`automatic_circuit_design_by_RCL_component_search.py`).

Numeric values of the program (Python floats) are embedded as rational
numbers `ℚ`.  The one place the program leaves the rationals is the
Euclidean error of the best pass, `math.sqrt(...)` (line 286); the best
pass is therefore stated generically over a linear order on error values
and the claim theorems instantiate it at `ℝ` with `Real.sqrt` applied to
the (rational) sum of squares.  Fallible code paths (a component with no
value source, tolerance expansion before a best value exists) are
embedded with `Except`.  The interactive `input()` confirmation loop of
the safety gate is embedded as a function of the list of responses the
user would type.
-/

namespace RCLSearch

/-- One component specification, the caller-facing fields of the
`dic_resistors` / `dic_capacitors` / `dic_inductors` inner dictionaries
(lines 123-187): optional fixed `value`, optional explicit `value_set`,
optional `value_scale` list, and a `tolerance` percentage. -/
structure CompSpec where
  value : Option ℚ
  value_set : Option (List ℚ)
  value_scale : Option (List ℚ)
  tolerance : ℚ
deriving DecidableEq

/-- One combination of concrete component values, one value per component
of the configured circuit, in the sorted identifier order
R1, R2, R3, C1, C2, L1 used by the search (lines 419-438). -/
structure Combo where
  R1 : ℚ
  R2 : ℚ
  R3 : ℚ
  C1 : ℚ
  C2 : ℚ
  L1 : ℚ
deriving DecidableEq

/-- The error kinds of the program: a component with none of the three
value sources (line 399-416, the spec's `ConfigurationError`), and
tolerance expansion invoked before a best value exists
(lines 533-538, the spec's `PrecursorMissingError`). -/
inductive SearchError where
  | configurationError : SearchError
  | precursorMissingError : SearchError
deriving DecidableEq

/-- Outcome of the safety-gate confirmation loop (lines 471-482):
proceed with the search, terminate cleanly (`exit()` on "n"/"N"), or
block forever waiting for a decisive response. -/
inductive GateOutcome where
  | proceed : GateOutcome
  | terminate : GateOutcome
  | blocked : GateOutcome
deriving DecidableEq

/-- Best-pass search state: the running `g_best_prev_error` (generic in
the error type, see the file comment) together with the best-so-far
snapshots of the two target quantities (line 292-293) and of the
component values (line 521). -/
structure BestState (α : Type) where
  best_error : α
  best_V_low : Option ℚ
  best_V_high : Option ℚ
  best_combo : Option Combo

/-- Worst-pass search state: the running `g_worst_prev_error` with the
worst-so-far snapshots (lines 316-318 and 572).  The Manhattan error of
the worst pass is rational, so no genericity is needed. -/
structure WorstState where
  worst_error : ℚ
  worst_V_low : Option ℚ
  worst_V_high : Option ℚ
  worst_combo : Option Combo
deriving DecidableEq

/-- E24 standard resistor series (lines 333-335). -/
def E24_resistor_values : List ℚ :=
  [1.0, 1.1, 1.2, 1.3, 1.5, 1.6, 1.8, 2.0, 2.2,
   2.4, 2.7, 3.0, 3.3, 3.6, 3.9, 4.3, 4.7, 5.1,
   5.6, 6.2, 6.8, 7.5, 8.2, 9.1]

/-- E12 standard capacitor series (lines 337-338). -/
def E12_capacitor_values : List ℚ :=
  [1.0, 1.2, 1.5, 1.8, 2.2, 2.7, 3.3, 3.9, 4.7,
   5.6, 6.8, 8.2]

/-- Initial value of the global best previous error (line 341). -/
def g_best_prev_error : ℚ := 10000000000.0

/-- Initial value of the global worst previous error (line 344). -/
def g_worst_prev_error : ℚ := 0.0

/-- The fixed parameter VCC of the configured example (line 114). -/
def VCC : ℚ := 5.0

/-- Target value of `V_low_threshold` (line 190). -/
def V_low_threshold_target : ℚ := 0.555

/-- Target value of `V_high_threshold` (line 199). -/
def V_high_threshold_target : ℚ := 0.575

/-- Configured specification of resistor R1 (lines 123-132). -/
def R1_spec : CompSpec := ⟨none, none, some [100, 1000, 10000, 100000], 1.0⟩

/-- Configured specification of resistor R2 (lines 134-143). -/
def R2_spec : CompSpec := ⟨none, none, some [100, 1000, 10000, 100000], 1.0⟩

/-- Configured specification of resistor R3 (lines 145-154). -/
def R3_spec : CompSpec := ⟨none, none, some [100, 1000, 10000, 100000], 1.0⟩

/-- Configured specification of capacitor C1, a fixed value (lines 156-165). -/
def C1_spec : CompSpec := ⟨some (1e-6), none, none, 10.0⟩

/-- Configured specification of capacitor C2, an explicit set (lines 167-176). -/
def C2_spec : CompSpec := ⟨none, some [1e-6, 10e-6], none, 1.0⟩

/-- Configured specification of inductor L1, a fixed value (lines 178-187). -/
def L1_spec : CompSpec := ⟨some (1e-3), none, none, 20.0⟩

/-- The circuit evaluator of the configured example
(`calc_evaluation_of_circuit_equations`, lines 238-270): the two
voltage-divider equations computing `(V_low_threshold, V_high_threshold)`
from the current R1, R2, R3 values (C1, C2, L1 are unused by the
equations). -/
def calc_evaluation_of_circuit_equations (R1 R2 R3 : ℚ) : ℚ × ℚ :=
  let R_total_low := (R2 * R3) / (R2 + R3)
  let V_low_threshold := VCC * R_total_low / (R1 + R_total_low)
  let R_total_high := (R1 * R3) / (R1 + R3)
  let V_high_threshold := VCC * R2 / (R2 + R_total_high)
  (V_low_threshold, V_high_threshold)

/-- The radicand of the best-pass Euclidean error of line 286:
`pow(V_low_target - V_low_obtained, 2) + pow(V_high_target - V_high_obtained, 2)`.
The source takes `math.sqrt` of this quantity; the claim theorems apply
`Real.sqrt` to it. -/
def sq_error_best (obtained : ℚ × ℚ) : ℚ :=
  (V_low_threshold_target - obtained.1) ^ 2 + (V_high_threshold_target - obtained.2) ^ 2

/-- The worst-pass Manhattan error of lines 312-313:
`fabs(V_low_target - V_low_obtained) + fabs(V_high_target - V_high_obtained)`. -/
def abs_error_worst (obtained : ℚ × ℚ) : ℚ :=
  |V_low_threshold_target - obtained.1| + |V_high_threshold_target - obtained.2|

/-- Embeds `calc_distance_error_best` (lines 278-295): compare the error of the
current obtained values against the previous best; on strict decrease,
record the new best error and snapshot the obtained target values, and
report `better_combination_values = true`.  `errf` is the error of one
pair of obtained values; the source computes
`math.sqrt(sq_error_best obtained)` here, and the claim theorems
instantiate `errf` with exactly that (ℝ-valued) function. -/
def calc_distance_error_best {α : Type} [LinearOrder α] (errf : ℚ × ℚ → α)
    (obtained : ℚ × ℚ) (s : BestState α) : Bool × BestState α :=
  let current_error := errf obtained
  if current_error < s.best_error then
    (true, ⟨current_error, some obtained.1, some obtained.2, s.best_combo⟩)
  else
    (false, s)

/-- Embeds `calc_absolute_distance_error_worst` (lines 304-320): compare the
Manhattan error of the current obtained values against the previous
worst; on strict increase, record it and snapshot the obtained target
values, reporting `even_worst_combination_values = true`. -/
def calc_absolute_distance_error_worst (obtained : ℚ × ℚ) (s : WorstState) :
    Bool × WorstState :=
  let current_error := abs_error_worst obtained
  if current_error > s.worst_error then
    (true, ⟨current_error, some obtained.1, some obtained.2, s.worst_combo⟩)
  else
    (false, s)

/-- The error the best pass assigns to one combination: `errf` applied to
the evaluator output for the combination's R values. -/
def combo_error {α : Type} (errf : ℚ × ℚ → α) (c : Combo) : α :=
  errf (calc_evaluation_of_circuit_equations c.R1 c.R2 c.R3)

/-- The best-pass radicand for one combination. -/
def best_combo_sq_error (c : Combo) : ℚ :=
  sq_error_best (calc_evaluation_of_circuit_equations c.R1 c.R2 c.R3)

/-- The worst-pass Manhattan error for one combination. -/
def worst_combo_abs_error (c : Combo) : ℚ :=
  abs_error_worst (calc_evaluation_of_circuit_equations c.R1 c.R2 c.R3)

/-- One iteration of the best-pass loop body (lines 511-521): evaluate
the circuit on the combination, score it with
`calc_distance_error_best`, and on improvement snapshot the combination
as the component best values. -/
def best_step {α : Type} [LinearOrder α] (errf : ℚ × ℚ → α)
    (s : BestState α) (c : Combo) : BestState α :=
  let obtained := calc_evaluation_of_circuit_equations c.R1 c.R2 c.R3
  let result := calc_distance_error_best errf obtained s
  if result.1 then ⟨result.2.best_error, result.2.best_V_low, result.2.best_V_high, some c⟩
  else result.2

/-- One iteration of the worst-pass loop body (lines 560-572). -/
def worst_step (s : WorstState) (c : Combo) : WorstState :=
  let obtained := calc_evaluation_of_circuit_equations c.R1 c.R2 c.R3
  let result := calc_absolute_distance_error_worst obtained s
  if result.1 then ⟨result.2.worst_error, result.2.worst_V_low, result.2.worst_V_high, some c⟩
  else result.2

/-- The best pass: fold the best-pass loop body over the whole
enumeration (the `for combination in iter_combinations` loop of
line 491). -/
def run_best_pass {α : Type} [LinearOrder α] (errf : ℚ × ℚ → α)
    (s0 : BestState α) (combos : List Combo) : BestState α :=
  combos.foldl (best_step errf) s0

/-- The worst pass: fold the worst-pass loop body over the whole
tolerance enumeration (the loop of line 560). -/
def run_worst_pass (s0 : WorstState) (combos : List Combo) : WorstState :=
  combos.foldl worst_step s0

/-- Embeds `expand_component` (lines 399-416), the per-component body: a fixed
`value` expands to the singleton `[value]`; otherwise an explicit
`value_set` is returned verbatim; otherwise every `value_scale` entry is
multiplied against every standard-series value, scale-major and
series-minor.  If none of the three sources is present the source
iterates `None` and fails; this is the configuration error. -/
def expand_component (component : CompSpec) (standard_scale_values : List ℚ) :
    Except SearchError (List ℚ) :=
  match component.value with
  | some value => Except.ok [value]
  | none =>
    match component.value_set with
    | some values => Except.ok values
    | none =>
      match component.value_scale with
      | some values_scale =>
          Except.ok (values_scale.flatMap fun scale =>
            standard_scale_values.map fun val => val * scale)
      | none => Except.error SearchError.configurationError

/-- Embeds `expand_each_component_tolerance` (lines 525-531): the three-point
tolerance band `[v - delta, v, v + delta]` with
`delta = v * tolerance_percent * 0.01`. -/
def expand_each_component_tolerance (comp_val comp_tolerance_perc : ℚ) : List ℚ :=
  let delta := comp_val * comp_tolerance_perc * 0.01
  [comp_val - delta, comp_val, comp_val + delta]

/-- Embeds `expand_component_tolerance_value_list` (lines 533-538), the
per-component body: expand the tolerance band of the component's best
value.  Before the best pass has run, `C_BEST_VALUE` is `None` and the
arithmetic on it fails; this is the precursor-missing error. -/
def expand_component_tolerance_value_list (comp_best_value : Option ℚ)
    (comp_tolerance_perc : ℚ) : Except SearchError (List ℚ) :=
  match comp_best_value with
  | none => Except.error SearchError.precursorMissingError
  | some v => Except.ok (expand_each_component_tolerance v comp_tolerance_perc)

/-- The cartesian product of the six per-component candidate lists in the
sorted identifier order R1, R2, R3, C1, C2, L1, exactly as
`itertools.product(*list_components_list_values)` enumerates it
(line 485): earlier lists vary slower, the last list varies fastest. -/
def product6 (lR1 lR2 lR3 lC1 lC2 lL1 : List ℚ) : List Combo :=
  lR1.flatMap fun r1 =>
    lR2.flatMap fun r2 =>
      lR3.flatMap fun r3 =>
        lC1.flatMap fun c1 =>
          lC2.flatMap fun c2 =>
            lL1.map fun l1 => ⟨r1, r2, r3, c1, c2, l1⟩

/-- Embeds `itertools.product` over an arbitrary list of candidate lists
(line 485 in its generic form): lexicographic enumeration, first list
varying slowest. -/
def product_lists : List (List ℚ) → List (List ℚ)
  | [] => [[]]
  | l :: rest => l.flatMap fun x => (product_lists rest).map fun combo => x :: combo

/-- The combination `product_lists` places at position `k`: mixed-radix
decoding of `k`, most significant digit on the first list (so the last
list varies fastest). -/
def combo_at : List (List ℚ) → ℕ → List ℚ
  | [], _ => []
  | l :: rest, k =>
    let block := (rest.map List.length).prod
    l.getD (k / block) 0 :: combo_at rest (k % block)

/-- Insert one `(identifier, values)` pair into an identifier-sorted list,
keeping it sorted (the comparison Python's `list.sort()` applies to the
`(name, values)` tuples is decided by the unique name). -/
def insertKeyed (p : String × List ℚ) : List (String × List ℚ) → List (String × List ℚ)
  | [] => [p]
  | q :: rest => if p.1 ≤ q.1 then p :: q :: rest else q :: insertKeyed p rest

/-- Sort a list of `(identifier, values)` pairs by identifier, ascending:
the `list_component.sort()` of line 423. -/
def sortKeyed : List (String × List ℚ) → List (String × List ℚ)
  | [] => []
  | p :: rest => insertKeyed p (sortKeyed rest)

/-- Embeds `make_list_component_expanded_values` (lines 419-424): collect the
`(name, expanded values)` pairs of one component dictionary and sort
them by identifier.  The dictionary is embedded as an association list
in insertion order, already projected to the requested field. -/
def make_list_component_expanded_values (dic_component : List (String × List ℚ)) :
    List (String × List ℚ) :=
  sortKeyed dic_component

/-- Embeds `make_two_combined_list_of_components` (lines 426-438): concatenate
the resistor, capacitor and inductor pair lists, in this order, and
split into the identifier list and the value-list list. -/
def make_two_combined_list_of_components
    (list_resistors list_capacitors list_inductors : List (String × List ℚ)) :
    List String × List (List ℚ) :=
  ((list_resistors ++ list_capacitors ++ list_inductors).map Prod.fst,
   (list_resistors ++ list_capacitors ++ list_inductors).map Prod.snd)

/-- The pre-enumeration combination count (lines 464-467): the running
product of the per-component candidate-list lengths. -/
def max_number_evaluations (list_components_list_values : List (List ℚ)) : ℕ :=
  list_components_list_values.foldl (fun acc lst => acc * lst.length) 1

/-- The `while(flag)` confirmation loop of lines 474-482 as a function of
the successive responses the user types: "y"/"Y" proceeds, "n"/"N"
terminates the program, anything else re-asks; an exhausted response
stream leaves the program blocked at the prompt. -/
def confirm_loop : List String → GateOutcome
  | [] => GateOutcome.blocked
  | resp :: rest =>
    if resp = "y" ∨ resp = "Y" then GateOutcome.proceed
    else if resp = "n" ∨ resp = "N" then GateOutcome.terminate
    else confirm_loop rest

/-- The safety gate of lines 471-482: ask for confirmation only when the
combination count strictly exceeds 25,000,000. -/
def safety_gate (max_number_evaluations : ℕ) (responses : List String) : GateOutcome :=
  if max_number_evaluations > 25000000 then confirm_loop responses
  else GateOutcome.proceed

/-- Embeds `full_search_of_R_C_L_component_values` (lines 451-523) for the six
configured components: compute the combination count, pass the safety
gate, and only on `proceed` run the best pass over the full cartesian
product.  `none` means no combination was ever evaluated (the gate
terminated or blocked). -/
def full_search_of_R_C_L_component_values {α : Type} [LinearOrder α]
    (errf : ℚ × ℚ → α) (init : α) (lR1 lR2 lR3 lC1 lC2 lL1 : List ℚ)
    (responses : List String) : Option (BestState α) :=
  let maxn := max_number_evaluations [lR1, lR2, lR3, lC1, lC2, lL1]
  match safety_gate maxn responses with
  | GateOutcome.proceed =>
      some (run_best_pass errf ⟨init, none, none, none⟩
        (product6 lR1 lR2 lR3 lC1 lC2 lL1))
  | GateOutcome.terminate => none
  | GateOutcome.blocked => none

/-- The expansion-then-search pipeline of `main` (lines 600-612): expand
all six component specifications eagerly, then hand the expanded lists
to the search driver.  Any expansion failure aborts before any
enumeration. -/
def expand_and_full_search {α : Type} [LinearOrder α]
    (errf : ℚ × ℚ → α) (init : α) (sR1 sR2 sR3 sC1 sC2 sL1 : CompSpec)
    (responses : List String) : Except SearchError (Option (BestState α)) :=
  match expand_component sR1 E24_resistor_values with
  | Except.error e => Except.error e
  | Except.ok lR1 =>
    match expand_component sR2 E24_resistor_values with
    | Except.error e => Except.error e
    | Except.ok lR2 =>
      match expand_component sR3 E24_resistor_values with
      | Except.error e => Except.error e
      | Except.ok lR3 =>
        match expand_component sC1 E12_capacitor_values with
        | Except.error e => Except.error e
        | Except.ok lC1 =>
          match expand_component sC2 E12_capacitor_values with
          | Except.error e => Except.error e
          | Except.ok lC2 =>
            match expand_component sL1 [] with
            | Except.error e => Except.error e
            | Except.ok lL1 =>
              Except.ok (full_search_of_R_C_L_component_values errf init
                lR1 lR2 lR3 lC1 lC2 lL1 responses)

/-- Embeds `worst_tolerance_component_analysis` (lines 540-572): expand the
three-point tolerance band of every component's best value (failing if a
best value is missing), then run the worst pass over the full cartesian
product of the bands starting from `g_worst_prev_error = 0`. -/
def worst_tolerance_component_analysis
    (bR1 bR2 bR3 bC1 bC2 bL1 : Option ℚ) (tR1 tR2 tR3 tC1 tC2 tL1 : ℚ) :
    Except SearchError WorstState :=
  match expand_component_tolerance_value_list bR1 tR1 with
  | Except.error e => Except.error e
  | Except.ok lR1 =>
    match expand_component_tolerance_value_list bR2 tR2 with
    | Except.error e => Except.error e
    | Except.ok lR2 =>
      match expand_component_tolerance_value_list bR3 tR3 with
      | Except.error e => Except.error e
      | Except.ok lR3 =>
        match expand_component_tolerance_value_list bC1 tC1 with
        | Except.error e => Except.error e
        | Except.ok lC1 =>
          match expand_component_tolerance_value_list bC2 tC2 with
          | Except.error e => Except.error e
          | Except.ok lC2 =>
            match expand_component_tolerance_value_list bL1 tL1 with
            | Except.error e => Except.error e
            | Except.ok lL1 =>
              Except.ok (run_worst_pass ⟨g_worst_prev_error, none, none, none⟩
                (product6 lR1 lR2 lR3 lC1 lC2 lL1))

/-! ### Helper lemmas: the running extrema are fold-minima / fold-maxima -/

theorem best_step_error {α : Type} [LinearOrder α] (errf : ℚ × ℚ → α)
    (s : BestState α) (c : Combo) :
    (best_step errf s c).best_error = min s.best_error (combo_error errf c) := by
  unfold best_step calc_distance_error_best combo_error
  rcases lt_or_ge (errf (calc_evaluation_of_circuit_equations c.R1 c.R2 c.R3)) s.best_error
    with h | h
  · simp [h, min_eq_right h.le]
  · simp [not_lt.mpr h, min_eq_left h]

theorem worst_step_error (s : WorstState) (c : Combo) :
    (worst_step s c).worst_error = max s.worst_error (worst_combo_abs_error c) := by
  unfold worst_step calc_absolute_distance_error_worst worst_combo_abs_error
  rcases lt_or_ge s.worst_error
    (abs_error_worst (calc_evaluation_of_circuit_equations c.R1 c.R2 c.R3)) with h | h
  · simp [h, max_eq_right h.le]
  · simp [not_lt.mpr h, max_eq_left h]

theorem run_best_pass_error {α : Type} [LinearOrder α] (errf : ℚ × ℚ → α) :
    ∀ (combos : List Combo) (s0 : BestState α),
      (run_best_pass errf s0 combos).best_error =
        combos.foldl (fun a c => min a (combo_error errf c)) s0.best_error := by
  intro combos
  induction combos with
  | nil => intro s0; rfl
  | cons c cs ih =>
    intro s0
    show (run_best_pass errf (best_step errf s0 c) cs).best_error = _
    rw [ih (best_step errf s0 c), best_step_error]
    rfl

theorem run_worst_pass_error :
    ∀ (combos : List Combo) (s0 : WorstState),
      (run_worst_pass s0 combos).worst_error =
        combos.foldl (fun a c => max a (worst_combo_abs_error c)) s0.worst_error := by
  intro combos
  induction combos with
  | nil => intro s0; rfl
  | cons c cs ih =>
    intro s0
    show (run_worst_pass (worst_step s0 c) cs).worst_error = _
    rw [ih (worst_step s0 c), worst_step_error]
    rfl

theorem foldl_min_le_init {α β : Type} [LinearOrder α] (f : β → α) :
    ∀ (l : List β) (a : α), l.foldl (fun x y => min x (f y)) a ≤ a := by
  intro l
  induction l with
  | nil => intro a; exact le_rfl
  | cons b bs ih => intro a; exact le_trans (ih (min a (f b))) (min_le_left _ _)

theorem foldl_min_le_mem {α β : Type} [LinearOrder α] (f : β → α) :
    ∀ (l : List β) (a : α) (b : β), b ∈ l →
      l.foldl (fun x y => min x (f y)) a ≤ f b := by
  intro l
  induction l with
  | nil => intro a b hb; cases hb
  | cons c cs ih =>
    intro a b hb
    rcases List.mem_cons.mp hb with h | h
    · subst h
      exact le_trans (foldl_min_le_init f cs (min a (f b))) (min_le_right _ _)
    · exact ih (min a (f c)) b h

theorem foldl_min_eq_init_or_mem {α β : Type} [LinearOrder α] (f : β → α) :
    ∀ (l : List β) (a : α),
      l.foldl (fun x y => min x (f y)) a = a ∨
        ∃ b ∈ l, l.foldl (fun x y => min x (f y)) a = f b := by
  intro l
  induction l with
  | nil => intro a; exact Or.inl rfl
  | cons c cs ih =>
    intro a
    simp only [List.foldl_cons]
    rcases ih (min a (f c)) with h | ⟨b, hb, he⟩
    · rcases le_total a (f c) with hle | hle
      · exact Or.inl (h.trans (min_eq_left hle))
      · exact Or.inr ⟨c, List.mem_cons_self c cs, h.trans (min_eq_right hle)⟩
    · exact Or.inr ⟨b, List.mem_cons_of_mem c hb, he⟩

theorem foldl_max_le_of_init {α β : Type} [LinearOrder α] (f : β → α) :
    ∀ (l : List β) (a : α), a ≤ l.foldl (fun x y => max x (f y)) a := by
  intro l
  induction l with
  | nil => intro a; exact le_rfl
  | cons b bs ih => intro a; exact le_trans (le_max_left _ _) (ih (max a (f b)))

theorem foldl_max_le_of_mem {α β : Type} [LinearOrder α] (f : β → α) :
    ∀ (l : List β) (a : α) (b : β), b ∈ l →
      f b ≤ l.foldl (fun x y => max x (f y)) a := by
  intro l
  induction l with
  | nil => intro a b hb; cases hb
  | cons c cs ih =>
    intro a b hb
    rcases List.mem_cons.mp hb with h | h
    · subst h
      exact le_trans (le_max_right _ _) (foldl_max_le_of_init f cs (max a (f b)))
    · exact ih (max a (f c)) b h

theorem foldl_max_eq_init_or_mem {α β : Type} [LinearOrder α] (f : β → α) :
    ∀ (l : List β) (a : α),
      l.foldl (fun x y => max x (f y)) a = a ∨
        ∃ b ∈ l, l.foldl (fun x y => max x (f y)) a = f b := by
  intro l
  induction l with
  | nil => intro a; exact Or.inl rfl
  | cons c cs ih =>
    intro a
    simp only [List.foldl_cons]
    rcases ih (max a (f c)) with h | ⟨b, hb, he⟩
    · rcases le_total a (f c) with hle | hle
      · exact Or.inr ⟨c, List.mem_cons_self c cs, h.trans (max_eq_right hle)⟩
      · exact Or.inl (h.trans (max_eq_left hle))
    · exact Or.inr ⟨b, List.mem_cons_of_mem c hb, he⟩

/-! ### Helper lemmas: bounds on the evaluator output and the best error -/

theorem calc_eval_bounds (R1 R2 R3 : ℚ) (h1 : 0 < R1) (h2 : 0 < R2) (h3 : 0 < R3) :
    0 < (calc_evaluation_of_circuit_equations R1 R2 R3).1 ∧
    (calc_evaluation_of_circuit_equations R1 R2 R3).1 < 5 ∧
    0 < (calc_evaluation_of_circuit_equations R1 R2 R3).2 ∧
    (calc_evaluation_of_circuit_equations R1 R2 R3).2 < 5 := by
  have hd1 : 0 < R2 + R3 := by linarith
  have hd2 : 0 < R1 + R3 := by linarith
  have hRt : 0 < R2 * R3 / (R2 + R3) := div_pos (mul_pos h2 h3) hd1
  have hRtH : 0 < R1 * R3 / (R1 + R3) := div_pos (mul_pos h1 h3) hd2
  have hV5 : VCC = 5 := by norm_num [VCC]
  simp only [calc_evaluation_of_circuit_equations, hV5]
  refine ⟨?_, ?_, ?_, ?_⟩
  · exact div_pos (by positivity) (by linarith)
  · rw [div_lt_iff₀ (by linarith)]
    linarith [hRt]
  · exact div_pos (by positivity) (by linarith)
  · rw [div_lt_iff₀ (by linarith)]
    linarith [hRtH]

theorem sq_error_best_lt (o : ℚ × ℚ) (h1 : 0 < o.1) (h2 : o.1 < 5)
    (h3 : 0 < o.2) (h4 : o.2 < 5) : sq_error_best o < 100 := by
  unfold sq_error_best V_low_threshold_target V_high_threshold_target
  nlinarith [mul_pos h1 (show (0:ℚ) < 5 - o.1 by linarith),
             mul_pos h3 (show (0:ℚ) < 5 - o.2 by linarith)]

theorem best_combo_error_lt_init (c : Combo)
    (h1 : 0 < c.R1) (h2 : 0 < c.R2) (h3 : 0 < c.R3) :
    Real.sqrt ((best_combo_sq_error c : ℚ) : ℝ) < ((g_best_prev_error : ℚ) : ℝ) := by
  have hb := calc_eval_bounds c.R1 c.R2 c.R3 h1 h2 h3
  have hq : best_combo_sq_error c < 100 :=
    sq_error_best_lt _ hb.1 hb.2.1 hb.2.2.1 hb.2.2.2
  have hg : ((g_best_prev_error : ℚ) : ℝ) = 10000000000 := by norm_num [g_best_prev_error]
  rw [hg, Real.sqrt_lt' (by norm_num)]
  have hcast : ((best_combo_sq_error c : ℚ) : ℝ) < 100 := by exact_mod_cast hq
  have h100 : (100 : ℝ) < 10000000000 ^ 2 := by norm_num
  linarith

theorem worst_combo_abs_error_nonneg (c : Combo) : 0 ≤ worst_combo_abs_error c := by
  unfold worst_combo_abs_error abs_error_worst
  positivity

/-! ### Helper lemmas: membership in the six-fold cartesian product -/

theorem mem_product6 {r1 r2 r3 c1 c2 l1 : ℚ} {lR1 lR2 lR3 lC1 lC2 lL1 : List ℚ}
    (h1 : r1 ∈ lR1) (h2 : r2 ∈ lR2) (h3 : r3 ∈ lR3)
    (h4 : c1 ∈ lC1) (h5 : c2 ∈ lC2) (h6 : l1 ∈ lL1) :
    (⟨r1, r2, r3, c1, c2, l1⟩ : Combo) ∈ product6 lR1 lR2 lR3 lC1 lC2 lL1 := by
  simp only [product6, List.mem_flatMap, List.mem_map]
  exact ⟨r1, h1, r2, h2, r3, h3, c1, h4, c2, h5, l1, h6, rfl⟩

theorem self_mem_expand_each_component_tolerance (v t : ℚ) :
    v ∈ expand_each_component_tolerance v t := by
  simp [expand_each_component_tolerance]

theorem calc_distance_error_best_better_iff {α : Type} [LinearOrder α]
    (errf : ℚ × ℚ → α) (o : ℚ × ℚ) (s : BestState α) :
    (calc_distance_error_best errf o s).1 = true ↔ errf o < s.best_error := by
  unfold calc_distance_error_best
  by_cases h : errf o < s.best_error
  · simp [h]
  · simp [h]

theorem calc_distance_error_best_update {α : Type} [LinearOrder α]
    (errf : ℚ × ℚ → α) (o : ℚ × ℚ) (s : BestState α) (h : errf o < s.best_error) :
    calc_distance_error_best errf o s =
      (true, ⟨errf o, some o.1, some o.2, s.best_combo⟩) := by
  unfold calc_distance_error_best
  rw [if_pos h]

/-! ### Claim theorems -/

/-- Claim C1: after the best pass runs over the full enumeration of
expanded component-value combinations, the final `best_error` equals the
minimum over all enumerated combinations of the Euclidean error
`sqrt(Σ (target_i - obtained_i)^2)` computed from the injected circuit
evaluator's outputs; no enumerated combination produces a strictly
smaller error.  (The hypotheses say the enumeration is non-empty and
every enumerated resistor value is positive, which holds for every
candidate list the value expander produces from the configured positive
scales and series.) -/
theorem claim_C1_best_pass_minimum (lR1 lR2 lR3 lC1 lC2 lL1 : List ℚ)
    (hne : product6 lR1 lR2 lR3 lC1 lC2 lL1 ≠ [])
    (hpos : ∀ c ∈ product6 lR1 lR2 lR3 lC1 lC2 lL1, 0 < c.R1 ∧ 0 < c.R2 ∧ 0 < c.R3) :
    (∃ c ∈ product6 lR1 lR2 lR3 lC1 lC2 lL1,
        (run_best_pass (fun o => Real.sqrt ((sq_error_best o : ℚ) : ℝ))
            ⟨((g_best_prev_error : ℚ) : ℝ), none, none, none⟩
            (product6 lR1 lR2 lR3 lC1 lC2 lL1)).best_error =
          Real.sqrt ((best_combo_sq_error c : ℚ) : ℝ)) ∧
    (∀ c ∈ product6 lR1 lR2 lR3 lC1 lC2 lL1,
        (run_best_pass (fun o => Real.sqrt ((sq_error_best o : ℚ) : ℝ))
            ⟨((g_best_prev_error : ℚ) : ℝ), none, none, none⟩
            (product6 lR1 lR2 lR3 lC1 lC2 lL1)).best_error ≤
          Real.sqrt ((best_combo_sq_error c : ℚ) : ℝ)) := by
  have herr := run_best_pass_error (fun o => Real.sqrt ((sq_error_best o : ℚ) : ℝ))
    (product6 lR1 lR2 lR3 lC1 lC2 lL1)
    ⟨((g_best_prev_error : ℚ) : ℝ), none, none, none⟩
  obtain ⟨c0, hc0⟩ := List.exists_mem_of_ne_nil _ hne
  constructor
  · rcases foldl_min_eq_init_or_mem
        (combo_error (fun o => Real.sqrt ((sq_error_best o : ℚ) : ℝ)))
        (product6 lR1 lR2 lR3 lC1 lC2 lL1) ((g_best_prev_error : ℚ) : ℝ)
      with h | ⟨b, hb, he⟩
    · exfalso
      have hle := foldl_min_le_mem
        (combo_error (fun o => Real.sqrt ((sq_error_best o : ℚ) : ℝ)))
        (product6 lR1 lR2 lR3 lC1 lC2 lL1) ((g_best_prev_error : ℚ) : ℝ) c0 hc0
      obtain ⟨p1, p2, p3⟩ := hpos c0 hc0
      have hlt := best_combo_error_lt_init c0 p1 p2 p3
      rw [h] at hle
      exact absurd (lt_of_le_of_lt hle hlt) (lt_irrefl _)
    · exact ⟨b, hb, herr.trans he⟩
  · intro c hc
    rw [herr]
    exact foldl_min_le_mem _ _ _ c hc

/-- Witness for C1 at a concrete one-combination enumeration. -/
theorem claim_C1_best_pass_minimum_witness :
    (product6 [100] [200] [300] [1] [1] [1] ≠ []) ∧
    (∀ c ∈ product6 [100] [200] [300] [1] [1] [1],
        0 < c.R1 ∧ 0 < c.R2 ∧ 0 < c.R3) ∧
    ((∃ c ∈ product6 [100] [200] [300] [1] [1] [1],
        (run_best_pass (fun o => Real.sqrt ((sq_error_best o : ℚ) : ℝ))
            ⟨((g_best_prev_error : ℚ) : ℝ), none, none, none⟩
            (product6 [100] [200] [300] [1] [1] [1])).best_error =
          Real.sqrt ((best_combo_sq_error c : ℚ) : ℝ)) ∧
    (∀ c ∈ product6 [100] [200] [300] [1] [1] [1],
        (run_best_pass (fun o => Real.sqrt ((sq_error_best o : ℚ) : ℝ))
            ⟨((g_best_prev_error : ℚ) : ℝ), none, none, none⟩
            (product6 [100] [200] [300] [1] [1] [1])).best_error ≤
          Real.sqrt ((best_combo_sq_error c : ℚ) : ℝ))) :=
  ⟨by decide, by decide,
   claim_C1_best_pass_minimum [100] [200] [300] [1] [1] [1] (by decide) (by decide)⟩

/-- Claim C2: after the worst pass runs over the full cartesian product
of the three-point tolerance bands built from each component's best
value, the final `worst_error` equals the maximum over all
tolerance-band combinations of the Manhattan error
`Σ |target_i - obtained_i|`, starting from `worst_error = 0` and
updating only on strict increase. -/
theorem claim_C2_worst_pass_maximum
    (bR1 bR2 bR3 bC1 bC2 bL1 tR1 tR2 tR3 tC1 tC2 tL1 : ℚ) :
    ∃ st, worst_tolerance_component_analysis
        (some bR1) (some bR2) (some bR3) (some bC1) (some bC2) (some bL1)
        tR1 tR2 tR3 tC1 tC2 tL1 = Except.ok st ∧
      (∃ c ∈ product6 (expand_each_component_tolerance bR1 tR1)
          (expand_each_component_tolerance bR2 tR2)
          (expand_each_component_tolerance bR3 tR3)
          (expand_each_component_tolerance bC1 tC1)
          (expand_each_component_tolerance bC2 tC2)
          (expand_each_component_tolerance bL1 tL1),
        st.worst_error = worst_combo_abs_error c) ∧
      (∀ c ∈ product6 (expand_each_component_tolerance bR1 tR1)
          (expand_each_component_tolerance bR2 tR2)
          (expand_each_component_tolerance bR3 tR3)
          (expand_each_component_tolerance bC1 tC1)
          (expand_each_component_tolerance bC2 tC2)
          (expand_each_component_tolerance bL1 tL1),
        worst_combo_abs_error c ≤ st.worst_error) := by
  refine ⟨_, rfl, ?_, ?_⟩
  · have herr := run_worst_pass_error
      (product6 (expand_each_component_tolerance bR1 tR1)
        (expand_each_component_tolerance bR2 tR2)
        (expand_each_component_tolerance bR3 tR3)
        (expand_each_component_tolerance bC1 tC1)
        (expand_each_component_tolerance bC2 tC2)
        (expand_each_component_tolerance bL1 tL1))
      ⟨g_worst_prev_error, none, none, none⟩
    have hc0 : (⟨bR1, bR2, bR3, bC1, bC2, bL1⟩ : Combo) ∈
        product6 (expand_each_component_tolerance bR1 tR1)
          (expand_each_component_tolerance bR2 tR2)
          (expand_each_component_tolerance bR3 tR3)
          (expand_each_component_tolerance bC1 tC1)
          (expand_each_component_tolerance bC2 tC2)
          (expand_each_component_tolerance bL1 tL1) :=
      mem_product6 (self_mem_expand_each_component_tolerance _ _)
        (self_mem_expand_each_component_tolerance _ _)
        (self_mem_expand_each_component_tolerance _ _)
        (self_mem_expand_each_component_tolerance _ _)
        (self_mem_expand_each_component_tolerance _ _)
        (self_mem_expand_each_component_tolerance _ _)
    rcases foldl_max_eq_init_or_mem worst_combo_abs_error
        (product6 (expand_each_component_tolerance bR1 tR1)
          (expand_each_component_tolerance bR2 tR2)
          (expand_each_component_tolerance bR3 tR3)
          (expand_each_component_tolerance bC1 tC1)
          (expand_each_component_tolerance bC2 tC2)
          (expand_each_component_tolerance bL1 tL1)) g_worst_prev_error
      with h | ⟨b, hb, he⟩
    · refine ⟨_, hc0, ?_⟩
      have h1 := foldl_max_le_of_mem worst_combo_abs_error
        (product6 (expand_each_component_tolerance bR1 tR1)
          (expand_each_component_tolerance bR2 tR2)
          (expand_each_component_tolerance bR3 tR3)
          (expand_each_component_tolerance bC1 tC1)
          (expand_each_component_tolerance bC2 tC2)
          (expand_each_component_tolerance bL1 tL1)) g_worst_prev_error _ hc0
      have h2 := worst_combo_abs_error_nonneg (⟨bR1, bR2, bR3, bC1, bC2, bL1⟩ : Combo)
      have h0 : g_worst_prev_error = 0 := by norm_num [g_worst_prev_error]
      rw [herr, h, h0]
      rw [h, h0] at h1
      linarith
    · exact ⟨b, hb, herr.trans he⟩
  · intro c hc
    have herr := run_worst_pass_error
      (product6 (expand_each_component_tolerance bR1 tR1)
        (expand_each_component_tolerance bR2 tR2)
        (expand_each_component_tolerance bR3 tR3)
        (expand_each_component_tolerance bC1 tC1)
        (expand_each_component_tolerance bC2 tC2)
        (expand_each_component_tolerance bL1 tL1))
      ⟨g_worst_prev_error, none, none, none⟩
    rw [herr]
    exact foldl_max_le_of_mem _ _ _ c hc

/-- Witness for C2 at concrete best values and tolerances. -/
theorem claim_C2_worst_pass_maximum_witness :
    ∃ st, worst_tolerance_component_analysis
        (some 1000) (some 2000) (some 3000) (some 1) (some 1) (some 1)
        1 1 1 10 1 20 = Except.ok st ∧
      worst_combo_abs_error ⟨1000, 2000, 3000, 1, 1, 1⟩ ≤ st.worst_error := by
  obtain ⟨st, hok, _, hall⟩ :=
    claim_C2_worst_pass_maximum 1000 2000 3000 1 1 1 1 1 1 10 1 20
  refine ⟨st, hok, hall _ ?_⟩
  exact mem_product6 (self_mem_expand_each_component_tolerance _ _)
    (self_mem_expand_each_component_tolerance _ _)
    (self_mem_expand_each_component_tolerance _ _)
    (self_mem_expand_each_component_tolerance _ _)
    (self_mem_expand_each_component_tolerance _ _)
    (self_mem_expand_each_component_tolerance _ _)

/-- Counterexample to claim C3 as stated: `best_error` is initialized to
the finite sentinel 10,000,000,000.0, not `+∞`, so an evaluator output
whose Euclidean error reaches the sentinel (here the error is exactly
2·10^10) does NOT qualify as a best-so-far update on the first
combination: `better_combination_values` is `false`. -/
theorem claim_C3_counterexample :
    (calc_distance_error_best (fun o => Real.sqrt ((sq_error_best o : ℚ) : ℝ))
        (V_low_threshold_target + 20000000000, V_high_threshold_target)
        ⟨((g_best_prev_error : ℚ) : ℝ), none, none, none⟩).1 = false := by
  have hsq : sq_error_best
      (V_low_threshold_target + 20000000000, V_high_threshold_target) =
      400000000000000000000 := by
    norm_num [sq_error_best]
  have hnot : ¬ Real.sqrt ((sq_error_best
      (V_low_threshold_target + 20000000000, V_high_threshold_target) : ℚ) : ℝ) <
      ((g_best_prev_error : ℚ) : ℝ) := by
    rw [not_lt, hsq]
    have hg : ((g_best_prev_error : ℚ) : ℝ) = 10000000000 := by
      norm_num [g_best_prev_error]
    rw [hg, Real.le_sqrt (by norm_num) (by norm_num)]
    norm_num
  cases hb : (calc_distance_error_best (fun o => Real.sqrt ((sq_error_best o : ℚ) : ℝ))
      (V_low_threshold_target + 20000000000, V_high_threshold_target)
      ⟨((g_best_prev_error : ℚ) : ℝ), none, none, none⟩).1 with
  | false => rfl
  | true =>
    exact absurd ((calc_distance_error_best_better_iff _ _ _).mp hb) hnot

/-- Claim C3, amended: `best_error` is initialized to the finite
sentinel 10,000,000,000.0 (not `+∞`), and the first enumerated
combination qualifies as a best-so-far update exactly when its Euclidean
error is strictly below that sentinel (which holds for the configured
evaluator, but not for every evaluator). -/
theorem claim_C3_best_error_initialization :
    g_best_prev_error = 10000000000 ∧
    ∀ o : ℚ × ℚ,
      Real.sqrt ((sq_error_best o : ℚ) : ℝ) < ((g_best_prev_error : ℚ) : ℝ) →
      (calc_distance_error_best (fun o' => Real.sqrt ((sq_error_best o' : ℚ) : ℝ)) o
          ⟨((g_best_prev_error : ℚ) : ℝ), none, none, none⟩).1 = true ∧
      (calc_distance_error_best (fun o' => Real.sqrt ((sq_error_best o' : ℚ) : ℝ)) o
          ⟨((g_best_prev_error : ℚ) : ℝ), none, none, none⟩).2.best_error =
        Real.sqrt ((sq_error_best o : ℚ) : ℝ) := by
  constructor
  · norm_num [g_best_prev_error]
  · intro o h
    rw [calc_distance_error_best_update
      (fun o' => Real.sqrt ((sq_error_best o' : ℚ) : ℝ)) o
      ⟨((g_best_prev_error : ℚ) : ℝ), none, none, none⟩ h]
    exact ⟨rfl, rfl⟩

/-- Witness for the amended C3: an obtained pair hitting the targets
exactly has error `sqrt 0 = 0 < 10^10` and qualifies. -/
theorem claim_C3_best_error_initialization_witness :
    (Real.sqrt ((sq_error_best (V_low_threshold_target, V_high_threshold_target) : ℚ) : ℝ) <
        ((g_best_prev_error : ℚ) : ℝ)) ∧
    (calc_distance_error_best (fun o' => Real.sqrt ((sq_error_best o' : ℚ) : ℝ))
        (V_low_threshold_target, V_high_threshold_target)
        ⟨((g_best_prev_error : ℚ) : ℝ), none, none, none⟩).1 = true := by
  have h : Real.sqrt ((sq_error_best
      (V_low_threshold_target, V_high_threshold_target) : ℚ) : ℝ) <
      ((g_best_prev_error : ℚ) : ℝ) := by
    have h0 : sq_error_best (V_low_threshold_target, V_high_threshold_target) = 0 := by
      norm_num [sq_error_best]
    rw [h0]
    have : Real.sqrt (((0 : ℚ) : ℝ)) = 0 := by
      norm_num [Real.sqrt_zero]
    rw [this]
    norm_num [g_best_prev_error]
  exact ⟨h, (claim_C3_best_error_initialization.2 _ h).1⟩

theorem foldl_mul_length :
    ∀ (lists : List (List ℚ)) (a : ℕ),
      lists.foldl (fun acc lst => acc * lst.length) a = a * (lists.map List.length).prod := by
  intro lists
  induction lists with
  | nil => intro a; simp
  | cons l ls ih =>
    intro a
    simp only [List.foldl_cons, List.map_cons, List.prod_cons]
    rw [ih (a * l.length), mul_assoc]

theorem flatMap_getElem?_const_length {β : Type} (f : ℚ → List β) (B : ℕ)
    (hf : ∀ a, (f a).length = B) :
    ∀ (l : List ℚ) (i j : ℕ), i < l.length → j < B →
      (l.flatMap f)[i * B + j]? = (l[i]?.bind fun a => (f a)[j]?) := by
  intro l
  induction l with
  | nil => intro i j hi _; cases hi
  | cons a as ih =>
    intro i j hi hj
    rw [List.flatMap_cons]
    cases i with
    | zero =>
      simp only [Nat.zero_mul, Nat.zero_add]
      rw [List.getElem?_append_left (by rw [hf a]; exact hj)]
      simp
    | succ n =>
      have hidx : (n + 1) * B + j = B + (n * B + j) := by ring
      rw [hidx, List.getElem?_append_right (by rw [hf a]; omega)]
      rw [hf a]
      have hsub : B + (n * B + j) - B = n * B + j := by omega
      rw [hsub, ih n j (by simpa using Nat.lt_of_succ_lt_succ (by simpa using hi)) hj]
      simp

/-- Claim C4: the pre-enumeration combination count equals the product of
the per-component candidate-list lengths, and for the configured example
(R1, R2, R3 each 4 scales x 24-value E24 series = 96, C1 fixed = 1,
C2 explicit set of 2, L1 fixed = 1) it is 96*96*96*1*2*1 = 1,769,472. -/
theorem claim_C4_combination_count :
    (∀ lists : List (List ℚ),
      max_number_evaluations lists = (lists.map List.length).prod) ∧
    (∃ l1 l2 l3 l4 l5 l6 : List ℚ,
      expand_component R1_spec E24_resistor_values = Except.ok l1 ∧
      expand_component R2_spec E24_resistor_values = Except.ok l2 ∧
      expand_component R3_spec E24_resistor_values = Except.ok l3 ∧
      expand_component C1_spec E12_capacitor_values = Except.ok l4 ∧
      expand_component C2_spec E12_capacitor_values = Except.ok l5 ∧
      expand_component L1_spec [] = Except.ok l6 ∧
      l1.length = 96 ∧ l2.length = 96 ∧ l3.length = 96 ∧
      l4.length = 1 ∧ l5.length = 2 ∧ l6.length = 1 ∧
      max_number_evaluations [l1, l2, l3, l4, l5, l6] = 1769472) := by
  constructor
  · intro lists
    rw [max_number_evaluations, foldl_mul_length lists 1, one_mul]
  · refine ⟨_, _, _, _, _, _, rfl, rfl, rfl, rfl, rfl, rfl, ?_, ?_, ?_, ?_, ?_, ?_, ?_⟩
    · decide
    · decide
    · decide
    · decide
    · decide
    · decide
    · decide

/-- Claim C5: value expansion resolves fixed-value > explicit-set >
scale-list; a fixed value yields exactly the singleton `[value]`, an
explicit set is returned verbatim, and the scale case yields the
products `unit * scale` concatenated scale-major / series-minor, of
length `m * n` for `m` scales and an `n`-value series. -/
theorem claim_C5_value_expander :
    (∀ (v : ℚ) (vs scal : Option (List ℚ)) (tol : ℚ) (series : List ℚ),
      expand_component ⟨some v, vs, scal, tol⟩ series = Except.ok [v]) ∧
    (∀ (vs : List ℚ) (scal : Option (List ℚ)) (tol : ℚ) (series : List ℚ),
      expand_component ⟨none, some vs, scal, tol⟩ series = Except.ok vs) ∧
    (∀ (scales : List ℚ) (tol : ℚ) (series : List ℚ),
      ∃ l : List ℚ,
        expand_component ⟨none, none, some scales, tol⟩ series = Except.ok l ∧
        l.length = scales.length * series.length ∧
        ∀ (i : Fin scales.length) (j : Fin series.length),
          l[(i : ℕ) * series.length + (j : ℕ)]? =
            some (series.get j * scales.get i)) := by
  refine ⟨fun v vs scal tol series => rfl, fun vs scal tol series => rfl, ?_⟩
  intro scales tol series
  refine ⟨_, rfl, ?_, ?_⟩
  · simp [List.length_flatMap, Function.comp_def, List.length_map, List.map_const',
      List.sum_replicate, smul_eq_mul]
  · intro i j
    rw [flatMap_getElem?_const_length (fun scale => series.map fun val => val * scale)
      series.length (fun a => by simp) scales i j i.isLt j.isLt]
    rw [List.getElem?_eq_getElem i.isLt]
    simp [List.getElem?_eq_getElem j.isLt]

/-- Claim C6: the tolerance band of a nominal value `v` and tolerance
percentage `t` is exactly `[v*(1 - t/100), v, v*(1 + t/100)]` in that
order; for nominal 1000 and tolerance 1% it is `[990, 1000, 1010]`. -/
theorem claim_C6_tolerance_expansion :
    (∀ nominal tolerance_percent : ℚ,
      expand_each_component_tolerance nominal tolerance_percent =
        [nominal * (1 - tolerance_percent / 100), nominal,
         nominal * (1 + tolerance_percent / 100)]) ∧
    expand_each_component_tolerance 1000 1 = [990, 1000, 1010] := by
  constructor
  · intro n t
    simp only [expand_each_component_tolerance, List.cons.injEq, and_true]
    norm_num
    constructor
    · ring
    · ring
  · norm_num [expand_each_component_tolerance, List.cons.injEq]

/-- Claim C7: when the pre-computed combination count exceeds the
threshold 25,000,000 the driver requests confirmation before
enumerating — it proceeds exactly when the confirmation loop reaches a
"y"/"Y" response, it never begins evaluating after a decline ("n"), and
it does not proceed with no response at all; at or below the threshold
it proceeds without asking. -/
theorem claim_C7_safety_gate {α : Type} [LinearOrder α] (errf : ℚ × ℚ → α) (init : α)
    (lR1 lR2 lR3 lC1 lC2 lL1 : List ℚ) (responses : List String) :
    (max_number_evaluations [lR1, lR2, lR3, lC1, lC2, lL1] > 25000000 →
      (full_search_of_R_C_L_component_values errf init lR1 lR2 lR3 lC1 lC2 lL1 responses =
          some (run_best_pass errf ⟨init, none, none, none⟩
            (product6 lR1 lR2 lR3 lC1 lC2 lL1)) ↔
        confirm_loop responses = GateOutcome.proceed)) ∧
    (max_number_evaluations [lR1, lR2, lR3, lC1, lC2, lL1] > 25000000 →
      ∀ rest : List String,
        full_search_of_R_C_L_component_values errf init lR1 lR2 lR3 lC1 lC2 lL1
          ("n" :: rest) = none) ∧
    (max_number_evaluations [lR1, lR2, lR3, lC1, lC2, lL1] > 25000000 →
      full_search_of_R_C_L_component_values errf init lR1 lR2 lR3 lC1 lC2 lL1 [] = none) ∧
    (¬ max_number_evaluations [lR1, lR2, lR3, lC1, lC2, lL1] > 25000000 →
      full_search_of_R_C_L_component_values errf init lR1 lR2 lR3 lC1 lC2 lL1 responses =
        some (run_best_pass errf ⟨init, none, none, none⟩
          (product6 lR1 lR2 lR3 lC1 lC2 lL1))) := by
  refine ⟨?_, ?_, ?_, ?_⟩
  · intro h
    simp only [full_search_of_R_C_L_component_values, safety_gate, if_pos h]
    cases hcl : confirm_loop responses with
    | proceed => simp
    | terminate => simp
    | blocked => simp
  · intro h rest
    simp only [full_search_of_R_C_L_component_values, safety_gate, if_pos h]
    have hcl : confirm_loop ("n" :: rest) = GateOutcome.terminate := by
      simp [confirm_loop]
    rw [hcl]
  · intro h
    simp only [full_search_of_R_C_L_component_values, safety_gate, if_pos h]
    rfl
  · intro h
    simp only [full_search_of_R_C_L_component_values, safety_gate, if_neg h]

/-- Witness for C7: an over-threshold configuration declined with "n"
evaluates nothing, and an under-threshold configuration proceeds without
any response. -/
theorem claim_C7_safety_gate_witness :
    (max_number_evaluations
        [List.replicate 20 (0 : ℚ), List.replicate 20 (0 : ℚ),
         List.replicate 20 (0 : ℚ), List.replicate 20 (0 : ℚ),
         List.replicate 20 (0 : ℚ), List.replicate 20 (0 : ℚ)] > 25000000 ∧
      full_search_of_R_C_L_component_values (fun o => sq_error_best o) 0
        (List.replicate 20 (0 : ℚ)) (List.replicate 20 (0 : ℚ))
        (List.replicate 20 (0 : ℚ)) (List.replicate 20 (0 : ℚ))
        (List.replicate 20 (0 : ℚ)) (List.replicate 20 (0 : ℚ)) ["n"] = none) ∧
    (¬ max_number_evaluations [[(1 : ℚ)], [1], [1], [1], [1], [1]] > 25000000 ∧
      full_search_of_R_C_L_component_values (fun o => sq_error_best o) 0
        [(1 : ℚ)] [1] [1] [1] [1] [1] [] =
        some (run_best_pass (fun o => sq_error_best o) ⟨0, none, none, none⟩
          (product6 [(1 : ℚ)] [1] [1] [1] [1] [1]))) := by
  have h1g : max_number_evaluations
      [List.replicate 20 (0 : ℚ), List.replicate 20 (0 : ℚ),
       List.replicate 20 (0 : ℚ), List.replicate 20 (0 : ℚ),
       List.replicate 20 (0 : ℚ), List.replicate 20 (0 : ℚ)] > 25000000 := by
    decide
  have h2 : ¬ max_number_evaluations [[(1 : ℚ)], [1], [1], [1], [1], [1]] > 25000000 := by
    decide
  refine ⟨⟨h1g, ?_⟩, ⟨h2, ?_⟩⟩
  · exact (claim_C7_safety_gate (fun o => sq_error_best o) 0
      (List.replicate 20 (0 : ℚ)) (List.replicate 20 (0 : ℚ))
      (List.replicate 20 (0 : ℚ)) (List.replicate 20 (0 : ℚ))
      (List.replicate 20 (0 : ℚ)) (List.replicate 20 (0 : ℚ)) []).2.1 h1g []
  · exact (claim_C7_safety_gate (fun o => sq_error_best o) 0
      [(1 : ℚ)] [1] [1] [1] [1] [1] []).2.2.2 h2

theorem expand_component_error_eq (spec : CompSpec) (series : List ℚ) (e : SearchError)
    (h : expand_component spec series = Except.error e) :
    e = SearchError.configurationError := by
  rcases spec with ⟨v, vs, sc, tol⟩
  unfold expand_component at h
  cases v <;> cases vs <;> cases sc <;> simp_all

/-- Claim C8: a component specification with none of the three value
sources makes value expansion fail with the configuration error, and the
expansion-then-search pipeline detects this eagerly: whichever of the
six components is unspecified, the whole run aborts with the
configuration error and no search (not even a partial one) is ever
produced. -/
theorem claim_C8_expansion_failure :
    (∀ (spec : CompSpec) (series : List ℚ),
      spec.value = none → spec.value_set = none → spec.value_scale = none →
      expand_component spec series = Except.error SearchError.configurationError) ∧
    (∀ {α : Type} [LinearOrder α] (errf : ℚ × ℚ → α) (init : α)
        (s1 s2 s3 s4 s5 s6 : CompSpec) (rs : List String),
      ((s1.value = none ∧ s1.value_set = none ∧ s1.value_scale = none) ∨
       (s2.value = none ∧ s2.value_set = none ∧ s2.value_scale = none) ∨
       (s3.value = none ∧ s3.value_set = none ∧ s3.value_scale = none) ∨
       (s4.value = none ∧ s4.value_set = none ∧ s4.value_scale = none) ∨
       (s5.value = none ∧ s5.value_set = none ∧ s5.value_scale = none) ∨
       (s6.value = none ∧ s6.value_set = none ∧ s6.value_scale = none)) →
      expand_and_full_search errf init s1 s2 s3 s4 s5 s6 rs =
        Except.error SearchError.configurationError) := by
  have hnone : ∀ (spec : CompSpec) (series : List ℚ),
      spec.value = none → spec.value_set = none → spec.value_scale = none →
      expand_component spec series = Except.error SearchError.configurationError := by
    intro spec series h1 h2 h3
    unfold expand_component
    rw [h1, h2, h3]
  refine ⟨hnone, ?_⟩
  intro α inst errf init s1 s2 s3 s4 s5 s6 rs hbad
  unfold expand_and_full_search
  cases h1 : expand_component s1 E24_resistor_values with
  | error e => rw [expand_component_error_eq _ _ _ h1]
  | ok l1 =>
    cases h2 : expand_component s2 E24_resistor_values with
    | error e => rw [expand_component_error_eq _ _ _ h2]
    | ok l2 =>
      cases h3 : expand_component s3 E24_resistor_values with
      | error e => rw [expand_component_error_eq _ _ _ h3]
      | ok l3 =>
        cases h4 : expand_component s4 E12_capacitor_values with
        | error e => rw [expand_component_error_eq _ _ _ h4]
        | ok l4 =>
          cases h5 : expand_component s5 E12_capacitor_values with
          | error e => rw [expand_component_error_eq _ _ _ h5]
          | ok l5 =>
            cases h6 : expand_component s6 [] with
            | error e => rw [expand_component_error_eq _ _ _ h6]
            | ok l6 =>
              exfalso
              rcases hbad with ⟨a, b, c⟩ | ⟨a, b, c⟩ | ⟨a, b, c⟩ | ⟨a, b, c⟩ |
                ⟨a, b, c⟩ | ⟨a, b, c⟩
              · rw [hnone s1 E24_resistor_values a b c] at h1; cases h1
              · rw [hnone s2 E24_resistor_values a b c] at h2; cases h2
              · rw [hnone s3 E24_resistor_values a b c] at h3; cases h3
              · rw [hnone s4 E12_capacitor_values a b c] at h4; cases h4
              · rw [hnone s5 E12_capacitor_values a b c] at h5; cases h5
              · rw [hnone s6 [] a b c] at h6; cases h6

/-- Witness for C8: a concrete fully-unspecified component aborts the
run with the configuration error. -/
theorem claim_C8_expansion_failure_witness :
    expand_component (⟨none, none, none, 5⟩ : CompSpec) E24_resistor_values =
      Except.error SearchError.configurationError ∧
    expand_and_full_search (fun o => sq_error_best o) (0 : ℚ)
      ⟨none, none, none, 5⟩ R2_spec R3_spec C1_spec C2_spec L1_spec [] =
      Except.error SearchError.configurationError :=
  ⟨claim_C8_expansion_failure.1 ⟨none, none, none, 5⟩ E24_resistor_values rfl rfl rfl,
   claim_C8_expansion_failure.2 (fun o => sq_error_best o) 0
     ⟨none, none, none, 5⟩ R2_spec R3_spec C1_spec C2_spec L1_spec []
     (Or.inl ⟨rfl, rfl, rfl⟩)⟩

theorem expand_component_tolerance_error_eq (b : Option ℚ) (t : ℚ) (e : SearchError)
    (h : expand_component_tolerance_value_list b t = Except.error e) :
    e = SearchError.precursorMissingError := by
  cases b <;> simp_all [expand_component_tolerance_value_list]

/-- Claim C9: tolerance expansion requires the nominal to be a
previously-resolved best value; with a missing (`none`) nominal it fails
with the precursor-missing error, and whichever of the six components
lacks a best value, the whole worst-case tolerance analysis aborts with
that error. -/
theorem claim_C9_tolerance_precondition :
    (∀ t : ℚ, expand_component_tolerance_value_list none t =
      Except.error SearchError.precursorMissingError) ∧
    (∀ (bR1 bR2 bR3 bC1 bC2 bL1 : Option ℚ) (tR1 tR2 tR3 tC1 tC2 tL1 : ℚ),
      (bR1 = none ∨ bR2 = none ∨ bR3 = none ∨ bC1 = none ∨ bC2 = none ∨ bL1 = none) →
      worst_tolerance_component_analysis bR1 bR2 bR3 bC1 bC2 bL1
        tR1 tR2 tR3 tC1 tC2 tL1 = Except.error SearchError.precursorMissingError) := by
  have hnone : ∀ t : ℚ, expand_component_tolerance_value_list none t =
      Except.error SearchError.precursorMissingError := fun t => rfl
  refine ⟨hnone, ?_⟩
  intro bR1 bR2 bR3 bC1 bC2 bL1 tR1 tR2 tR3 tC1 tC2 tL1 hbad
  unfold worst_tolerance_component_analysis
  cases h1 : expand_component_tolerance_value_list bR1 tR1 with
  | error e => rw [expand_component_tolerance_error_eq _ _ _ h1]
  | ok l1 =>
    cases h2 : expand_component_tolerance_value_list bR2 tR2 with
    | error e => rw [expand_component_tolerance_error_eq _ _ _ h2]
    | ok l2 =>
      cases h3 : expand_component_tolerance_value_list bR3 tR3 with
      | error e => rw [expand_component_tolerance_error_eq _ _ _ h3]
      | ok l3 =>
        cases h4 : expand_component_tolerance_value_list bC1 tC1 with
        | error e => rw [expand_component_tolerance_error_eq _ _ _ h4]
        | ok l4 =>
          cases h5 : expand_component_tolerance_value_list bC2 tC2 with
          | error e => rw [expand_component_tolerance_error_eq _ _ _ h5]
          | ok l5 =>
            cases h6 : expand_component_tolerance_value_list bL1 tL1 with
            | error e => rw [expand_component_tolerance_error_eq _ _ _ h6]
            | ok l6 =>
              exfalso
              rcases hbad with h | h | h | h | h | h
              · rw [h, hnone tR1] at h1; cases h1
              · rw [h, hnone tR2] at h2; cases h2
              · rw [h, hnone tR3] at h3; cases h3
              · rw [h, hnone tC1] at h4; cases h4
              · rw [h, hnone tC2] at h5; cases h5
              · rw [h, hnone tL1] at h6; cases h6

/-- Witness for C9: with every best value missing except the last five,
the analysis aborts with the precursor-missing error. -/
theorem claim_C9_tolerance_precondition_witness :
    expand_component_tolerance_value_list none (1 : ℚ) =
      Except.error SearchError.precursorMissingError ∧
    worst_tolerance_component_analysis none (some 2000) (some 3000)
      (some 1) (some 1) (some 1) 1 1 1 10 1 20 =
      Except.error SearchError.precursorMissingError :=
  ⟨claim_C9_tolerance_precondition.1 1,
   claim_C9_tolerance_precondition.2 none (some 2000) (some 3000)
     (some 1) (some 1) (some 1) 1 1 1 10 1 20 (Or.inl rfl)⟩

theorem mem_insertKeyed (p q : String × List ℚ) :
    ∀ l : List (String × List ℚ), q ∈ insertKeyed p l ↔ q = p ∨ q ∈ l := by
  intro l
  induction l with
  | nil => simp [insertKeyed]
  | cons r rest ih =>
    simp only [insertKeyed]
    by_cases h : p.1 ≤ r.1
    · rw [if_pos h]
      simp [List.mem_cons]
    · rw [if_neg h]
      simp only [List.mem_cons, ih]
      tauto

theorem pairwise_insertKeyed (p : String × List ℚ) :
    ∀ l : List (String × List ℚ),
      l.Pairwise (fun a b => a.1 ≤ b.1) →
      (insertKeyed p l).Pairwise (fun a b => a.1 ≤ b.1) := by
  intro l
  induction l with
  | nil => intro _; simp [insertKeyed]
  | cons r rest ih =>
    intro hp
    rw [List.pairwise_cons] at hp
    obtain ⟨hr, hrest⟩ := hp
    simp only [insertKeyed]
    by_cases h : p.1 ≤ r.1
    · rw [if_pos h, List.pairwise_cons]
      constructor
      · intro b hb
        rcases List.mem_cons.mp hb with rfl | hb'
        · exact h
        · exact le_trans h (hr b hb')
      · rw [List.pairwise_cons]
        exact ⟨hr, hrest⟩
    · rw [if_neg h, List.pairwise_cons]
      constructor
      · intro b hb
        rcases (mem_insertKeyed p b rest).mp hb with rfl | hb'
        · exact le_of_not_le h
        · exact hr b hb'
      · exact ih hrest

theorem sortKeyed_pairwise :
    ∀ l : List (String × List ℚ),
      (sortKeyed l).Pairwise (fun a b => a.1 ≤ b.1) := by
  intro l
  induction l with
  | nil => simp [sortKeyed]
  | cons p rest ih => exact pairwise_insertKeyed p _ ih

theorem length_product_lists :
    ∀ ls : List (List ℚ), (product_lists ls).length = (ls.map List.length).prod := by
  intro ls
  induction ls with
  | nil => rfl
  | cons l ls ih =>
    simp [product_lists, List.length_flatMap, List.map_cons, List.prod_cons,
      Function.comp_def, List.length_map, ih, List.map_const', List.sum_replicate,
      smul_eq_mul]

theorem product_lists_getElem? :
    ∀ lists : List (List ℚ), (∀ l ∈ lists, l ≠ []) →
      ∀ k : ℕ, k < (lists.map List.length).prod →
        (product_lists lists)[k]? = some (combo_at lists k) := by
  intro lists
  induction lists with
  | nil =>
    intro _ k hk
    have hk0 : k = 0 := by simpa using Nat.lt_one_iff.mp (by simpa using hk)
    subst hk0
    rfl
  | cons l ls ih =>
    intro hne k hk
    have hnels : ∀ l' ∈ ls, l' ≠ [] := fun l' h => hne l' (List.mem_cons_of_mem _ h)
    have hB : 0 < (ls.map List.length).prod := by
      apply List.prod_pos
      intro n hn
      rw [List.mem_map] at hn
      obtain ⟨l', hl', rfl⟩ := hn
      exact List.length_pos.mpr (hnels l' hl')
    have hk' : k < l.length * (ls.map List.length).prod := by
      simpa [List.map_cons, List.prod_cons] using hk
    have hi : k / (ls.map List.length).prod < l.length :=
      (Nat.div_lt_iff_lt_mul hB).mpr hk'
    have hj : k % (ls.map List.length).prod < (ls.map List.length).prod :=
      Nat.mod_lt _ hB
    have hkeq : (k / (ls.map List.length).prod) * (ls.map List.length).prod +
        k % (ls.map List.length).prod = k := by
      rw [mul_comm]
      exact Nat.div_add_mod k _
    have hflen : ∀ a : ℚ,
        ((product_lists ls).map (fun combo => a :: combo)).length =
          (ls.map List.length).prod := by
      intro a
      rw [List.length_map, length_product_lists]
    have hstep := flatMap_getElem?_const_length
      (fun x => (product_lists ls).map fun combo => x :: combo)
      ((ls.map List.length).prod) hflen l
      (k / (ls.map List.length).prod) (k % (ls.map List.length).prod) hi hj
    have h1 : (product_lists (l :: ls))[k]? =
        (l.flatMap fun x => (product_lists ls).map fun combo => x :: combo)[
          (k / (ls.map List.length).prod) * (ls.map List.length).prod +
            k % (ls.map List.length).prod]? := by
      rw [hkeq]
      rfl
    rw [h1, hstep, List.getElem?_eq_getElem hi]
    simp only [Option.some_bind]
    rw [List.getElem?_map, ih hnels _ hj]
    show _ = some (combo_at (l :: ls) k)
    simp only [combo_at]
    rw [List.getD_eq_getElem?_getD, List.getElem?_eq_getElem hi]
    rfl

/-- Claim C10: the fixed identifier ordering used by both passes is the
resistor identifiers in ascending string order, then the capacitor
identifiers, then the inductor identifiers (each block ascending), and
the cartesian product enumerates combinations in lexicographic order
over this sequence: the combination at position `k` is the mixed-radix
decoding of `k`, so the last identifier's list varies fastest and the
first identifier's varies slowest. -/
theorem claim_C10_enumeration_order :
    (∀ lr lc ll : List (String × List ℚ),
      (make_two_combined_list_of_components
          (make_list_component_expanded_values lr)
          (make_list_component_expanded_values lc)
          (make_list_component_expanded_values ll)).1 =
        (sortKeyed lr).map Prod.fst ++ (sortKeyed lc).map Prod.fst ++
          (sortKeyed ll).map Prod.fst ∧
      ((sortKeyed lr).map Prod.fst).Sorted (· ≤ ·) ∧
      ((sortKeyed lc).map Prod.fst).Sorted (· ≤ ·) ∧
      ((sortKeyed ll).map Prod.fst).Sorted (· ≤ ·)) ∧
    (∀ lists : List (List ℚ), (∀ l ∈ lists, l ≠ []) →
      ∀ k : ℕ, k < (lists.map List.length).prod →
        (product_lists lists)[k]? = some (combo_at lists k)) := by
  constructor
  · intro lr lc ll
    refine ⟨?_, ?_, ?_, ?_⟩
    · simp [make_two_combined_list_of_components, make_list_component_expanded_values,
        List.map_append]
    · exact (List.pairwise_map).mpr (sortKeyed_pairwise lr)
    · exact (List.pairwise_map).mpr (sortKeyed_pairwise lc)
    · exact (List.pairwise_map).mpr (sortKeyed_pairwise ll)
  · exact product_lists_getElem?

/-- Witness for C10 at a concrete two-list enumeration: position 1 of
the product of `[1, 2]` and `[10, 20]` is `[1, 20]` (last list varies
fastest). -/
theorem claim_C10_enumeration_order_witness :
    (∀ l ∈ [[(1 : ℚ), 2], [10, 20]], l ≠ []) ∧
    1 < (([[(1 : ℚ), 2], [10, 20]]).map List.length).prod ∧
    (product_lists [[(1 : ℚ), 2], [10, 20]])[1]? =
      some (combo_at [[(1 : ℚ), 2], [10, 20]] 1) :=
  ⟨by decide, by decide,
   claim_C10_enumeration_order.2 [[(1 : ℚ), 2], [10, 20]] (by decide) 1 (by decide)⟩

end RCLSearch
